import Mathlib

/-!
Shallow embedding of the tag dispatcher/renderer of bcproxy (src/proxy.c),
together with the session-state transitions of its event handlers.

Conventions of the embedding:
* A byte string is modelled as a Lean `String` whose characters all have
  code points below 256; the NUL byte is the character with code point 0.
* `buffer_append_buf` appends the full contents of the scratch buffer
  (embedded NUL bytes included), while every use of the scratch buffer as a
  C string (`tmpstr` passed to `strcmp`, `strncmp`, or a `%s` conversion of
  `asprintf`) reads it only up to the first NUL byte; `cstr` models that
  truncation.
* The external collaborators excluded by the design (the location decoder
  `room_new` of room.c and the palette function `rgb_to_xterm` of color.c)
  are parameters of an environment record.
* The local `uint32_t rgb` of the color cases is uninitialized; when the
  `sscanf` conversion fails it is read as-is, so each dispatch takes an
  explicit `junk` input holding the fresh indeterminate stack contents of
  that call, used (reduced modulo 2 ^ 32) only on conversion failure.
* Allocation is assumed to succeed: `asprintf` and `malloc` failures, which
  the code reports and skips, are not modelled.
-/

/-- A decoded location, mirroring `struct room` of room.h as used by
proxy.c: an identifier, a containing area and an arrival direction. -/
structure Room where
  id : String
  area : String
  direction : String
deriving DecidableEq

/-- The dispatcher session state, mirroring `struct proxy_state`: the
rendered-output buffer, the scratch buffer for the tag being assembled, the
optional argument string and the optional last-known location. -/
structure ProxyState where
  obuf : String
  tmpbuf : String
  argstr : Option String
  room : Option Room
deriving DecidableEq

/-- The external environment of the dispatcher: `decode` is `room_new`
(returns `none` on decode failure) and `palette` is `rgb_to_xterm`. -/
structure Env where
  decode : String → Option Room
  palette : Nat → Nat

/-- The C-string reading of a byte string: its contents up to (and not
including) the first NUL byte. -/
def cstr (s : String) : String :=
  String.mk (s.toList.takeWhile (fun c => c ≠ Char.ofNat 0))

/-- Whether a character is whitespace for C `isspace` in the C locale, as
skipped by a `sscanf` conversion: space, tab, newline, vertical tab, form
feed and carriage return (code points 32 and 9 through 13). -/
def isSpaceC (c : Char) : Bool :=
  c.toNat = 32 || (9 ≤ c.toNat && c.toNat ≤ 13)

/-- Whether a character is a hexadecimal digit, as accepted by the `%x`
conversion of `sscanf`. -/
def hexDigit (c : Char) : Bool :=
  c.isDigit || (Char.ofNat 97 ≤ c && c ≤ Char.ofNat 102) ||
    (Char.ofNat 65 ≤ c && c ≤ Char.ofNat 70)

/-- The numeric value of a hexadecimal digit character. -/
def hexDigitVal (c : Char) : Nat :=
  if c.isDigit then c.toNat - 48
  else if Char.ofNat 97 ≤ c then c.toNat - 87
  else c.toNat - 55

/-- The `sscanf(st->argstr, "%6x", &rgb)` conversion: skip leading
`isspace` whitespace, then match at most six characters of an optionally
signed hexadecimal integer in `strtoul` base-16 format (optional `0x` or
`0X` after the sign, then hexadecimal digits). A sign with no digits and
no base indicator is a matching failure (`none`), which leaves `rgb`
holding its indeterminate initial value; a bare base indicator with no
following digit converts as the single digit `0` (glibc pushes the `x`
back). A negative value wraps as in `strtoul`, reduced to the `uint32_t`
destination. -/
def scanHex6 (s : String) : Option Nat :=
  let t := (s.toList.dropWhile isSpaceC).take 6
  let signStripped :=
    match t with
    | '-' :: r => (true, r)
    | '+' :: r => (false, r)
    | r => (false, r)
  let neg := signStripped.1
  let baseStripped :=
    match signStripped.2 with
    | '0' :: 'x' :: r => (true, r)
    | '0' :: 'X' :: r => (true, r)
    | r => (false, r)
  let ds := baseStripped.2.takeWhile hexDigit
  if ds.isEmpty then
    (if baseStripped.1 then some 0 else none)
  else
    let v := ds.foldl (fun a c => a * 16 + hexDigitVal c) 0
    some (if neg then (4294967296 - v) % 4294967296 else v)

/-- Rendering of the typed-message tag (case 10 of `on_close`): branch on
the argument string, falling through to a plain append of the full body. -/
def msg10 (arg : Option String) (body : String) : String :=
  match arg with
  | none => body
  | some a =>
    if a = "spec_prompt" then body ++ "\xff\xf9"
    else if a = "spec_map" then
      (if cstr body = "NoMapSupport" then "" else body)
    else a ++ ": " ++ body

/-- Rendering of the color tags (cases 20 and 21 of `on_close`): with an
argument present, wrap the C-string body in an xterm 256-color escape for
the palette-approximated RGB value, followed by a reset escape. The body
passes through a `%s` conversion, hence the `cstr` truncation. `junk` is
the fresh indeterminate content of the uninitialized `uint32_t rgb` at
this dispatch, read only when the conversion fails; 4294967296 is 2 ^ 32,
the modulus of `uint32_t`. -/
def colorRender (env : Env) (junk : Nat) (is_fg : Bool) (arg : Option String)
    (body : String) : String :=
  match arg with
  | none => ""
  | some a =>
    let rgb := match scanHex6 a with
      | some v => v
      | none => junk % 4294967296
    "\x1b[" ++ (if is_fg then "3" else "4") ++ "8;5;" ++
      toString (env.palette rgb) ++ "m" ++ cstr body ++ "\x1b[0m"

/-- Rendering of the mapper tag (case 99 of `on_close`): bodies carrying
the `BAT_MAPPER;;` sentinel either report an exit to the overview map
(releasing the stored location) or are handed to the location decoder,
whose result replaces the stored location on success; returns the appended
bytes and the new stored location. -/
def mapperRender (env : Env) (body : String) (room : Option Room) : String × Option Room :=
  let t := cstr body
  if t.toList.take 12 = "BAT_MAPPER;;".toList then
    if t = "BAT_MAPPER;;REALM_MAP" then
      ("Exited to map from " ++
        (match room with | some r => r.area | none => "(unknown)") ++ ".\n", none)
    else
      match env.decode t with
      | none => ("", room)
      | some nw =>
        let msg :=
          match room with
          | none => "Entered area " ++ nw.area ++ " with direction " ++ nw.direction ++ "\n"
          | some old =>
            if old.area ≠ nw.area then
              "Entered area " ++ nw.area ++ " with direction " ++ nw.direction ++ "\n"
            else
              "Moved (" ++ old.id ++ ") --" ++ nw.direction ++ "-> (" ++ nw.id ++ ")\n"
        (msg, some nw)
  else ("", room)

/-- The tag codes handled by a non-default case of the `on_close` switch. -/
def knownCodes : List Nat :=
  [5, 6, 10, 11, 20, 21, 22, 23, 24, 25, 31, 40, 41, 42, 50, 51, 52, 53, 54, 60, 64, 70, 99]

/-- The tag codes whose cases of the `on_close` switch fall through to
`break` without touching the output buffer: connection status (5, 6),
screen clear (11) and the status-telemetry codes. -/
def silentCodes : List Nat :=
  [5, 6, 11, 40, 41, 42, 50, 51, 52, 53, 54, 60]

/-- The render step of `on_close`: the switch over `parser->tag->code`,
given the argument string, the scratch-buffer body and the stored
location; `junk` is the indeterminate content of the uninitialized color
local at this dispatch. Returns the bytes appended to the output buffer
and the new stored location. -/
def renderTag (env : Env) (junk : Nat) (code : Nat) (arg : Option String) (body : String)
    (room : Option Room) : String × Option Room :=
  if code = 5 ∨ code = 6 then ("", room)
  else if code = 10 then (msg10 arg body, room)
  else if code = 11 then ("", room)
  else if code = 20 then (colorRender env junk true arg body, room)
  else if code = 21 then (colorRender env junk false arg body, room)
  else if code = 22 ∨ code = 23 ∨ code = 24 ∨ code = 25 ∨ code = 31 then (body, room)
  else if code = 40 ∨ code = 41 ∨ code = 42 ∨ code = 50 ∨ code = 51 ∨ code = 52 ∨
          code = 53 ∨ code = 54 ∨ code = 60 then ("", room)
  else if code = 64 then ("[prots]" ++ body ++ "\n", room)
  else if code = 70 then ("[target]" ++ body ++ "\n", room)
  else if code = 99 then mapperRender env body room
  else ("[unknown tag " ++ toString code ++ "]" ++ cstr body ++ "\n", room)

/-- The `on_close` handler: render according to the tag code, append the
result to the output buffer, then clear the scratch buffer and discard the
argument string. -/
def on_close (env : Env) (junk : Nat) (code : Nat) (st : ProxyState) : ProxyState :=
  { obuf := st.obuf ++ (renderTag env junk code st.argstr st.tmpbuf st.room).1
    tmpbuf := ""
    argstr := none
    room := (renderTag env junk code st.argstr st.tmpbuf st.room).2 }

/-- The `on_open` handler: if the session still holds pending scratch
content or an unconsumed argument string, flush the pending tag through the
normal close path before the new tag begins. `code` is the tag code that
`parser->tag` carries when `on_close` runs. -/
def on_open (env : Env) (junk : Nat) (code : Nat) (st : ProxyState) : ProxyState :=
  if st.tmpbuf.length != 0 || st.argstr.isSome then on_close env junk code st else st

/-- The `on_tag_text` handler: append tag-body bytes to the scratch
buffer. -/
def on_tag_text (st : ProxyState) (buf : String) : ProxyState :=
  { st with tmpbuf := st.tmpbuf ++ buf }

/-- The `on_arg_end` handler: snapshot the scratch buffer into the argument
string and clear the scratch buffer. Every later use reads the snapshot as
a C string, so the stored value is its NUL-truncated reading. -/
def on_arg_end (st : ProxyState) : ProxyState :=
  { st with argstr := some (cstr st.tmpbuf), tmpbuf := "" }

/-- The `on_text` handler: literal text outside any tag passes straight to
the output buffer. -/
def on_text (st : ProxyState) (buf : String) : ProxyState :=
  { st with obuf := st.obuf ++ buf }

/-- A sample environment: the decoder always fails and the palette is
constantly 0. -/
def env0 : Env :=
  { decode := fun _ => none, palette := fun _ => 0 }

/-- A sample environment whose decoder always succeeds with a fixed room. -/
def env1 : Env :=
  { decode := fun _ => some { id := "r1", area := "a1", direction := "n" }
    palette := fun _ => 0 }

/-- A sample environment whose palette is the identity, distinguishing
distinct RGB inputs. -/
def env2 : Env :=
  { decode := fun _ => none, palette := fun v => v }

/-- C1: for the typed-message tag (code 10) on tag-closed, a "spec_prompt"
argument renders the body followed by the two bytes 0xFF 0xF9; a "spec_map"
argument with body equal to the sentinel "NoMapSupport" produces no output;
any other non-empty argument renders the argument, then ": ", then the
body; an absent argument renders the body unmodified. -/
theorem c1_typed_message (env : Env) (junk : Nat) (arg body : String) (room : Option Room) :
    (renderTag env junk 10 (some "spec_prompt") body room).1 = body ++ "\xff\xf9"
    ∧ (body = "NoMapSupport" → (renderTag env junk 10 (some "spec_map") body room).1 = "")
    ∧ (arg ≠ "spec_prompt" → arg ≠ "spec_map" → arg ≠ "" →
        (renderTag env junk 10 (some arg) body room).1 = arg ++ ": " ++ body)
    ∧ (renderTag env junk 10 none body room).1 = body := by
  refine ⟨by simp [renderTag, msg10], ?_, ?_, by simp [renderTag, msg10]⟩
  · rintro rfl
    simp [renderTag, msg10, (by decide : cstr "NoMapSupport" = "NoMapSupport")]
  · intro h1 h2 h3
    simp [renderTag, msg10, h1, h2]

/-- Closed instance of the C1 theorem at concrete inputs, discharging its
hypotheses. -/
theorem c1_typed_message_witness :
    (renderTag env0 0 10 (some "spec_map") "NoMapSupport" none).1 = ""
    ∧ (renderTag env0 0 10 (some "foo") "hi" none).1 = "foo" ++ ": " ++ "hi" :=
  ⟨(c1_typed_message env0 0 "foo" "NoMapSupport" none).2.1 rfl,
   (c1_typed_message env0 0 "foo" "hi" none).2.2.1 (by decide) (by decide) (by decide)⟩

/-- C2: for the mapper tag (code 99), a body equal to the
returned-to-overview sentinel renders "Exited to map from X." naming the
previously known area, or "(unknown)" if none; otherwise, for a body
carrying the mapper sentinel prefix, on successful decode an
"Entered area X with direction Y" message is emitted when there was no
previous location or its area differs from the new one, and a
"Moved (old-id) --direction-> (new-id)" message is emitted when the area
is the same. -/
theorem c2_mapper_messages (env : Env) (junk : Nat) (arg : Option String) (body : String)
    (room : Option Room) (nw old : Room) :
    ((renderTag env junk 99 arg "BAT_MAPPER;;REALM_MAP" room).1
        = "Exited to map from "
            ++ (match room with | some r => r.area | none => "(unknown)") ++ ".\n")
    ∧ ((cstr body).toList.take 12 = "BAT_MAPPER;;".toList →
        cstr body ≠ "BAT_MAPPER;;REALM_MAP" →
        env.decode (cstr body) = some nw →
        ((room = none →
            (renderTag env junk 99 arg body room).1
              = "Entered area " ++ nw.area ++ " with direction " ++ nw.direction ++ "\n")
         ∧ (room = some old → old.area ≠ nw.area →
            (renderTag env junk 99 arg body room).1
              = "Entered area " ++ nw.area ++ " with direction " ++ nw.direction ++ "\n")
         ∧ (room = some old → old.area = nw.area →
            (renderTag env junk 99 arg body room).1
              = "Moved (" ++ old.id ++ ") --" ++ nw.direction ++ "-> (" ++ nw.id ++ ")\n"))) := by
  constructor
  · have h1 : cstr "BAT_MAPPER;;REALM_MAP" = "BAT_MAPPER;;REALM_MAP" := by decide
    cases room <;> simp [renderTag, mapperRender, h1]
  · intro hp hne hdec
    simp at hp
    refine ⟨?_, ?_, ?_⟩
    · rintro rfl
      simp [renderTag, mapperRender, hp, hne, hdec]
    · rintro rfl hav
      simp [renderTag, mapperRender, hp, hne, hdec, hav]
    · rintro rfl hav
      simp [renderTag, mapperRender, hp, hne, hdec, hav]

/-- Closed instance of the C2 theorem at concrete inputs, discharging its
hypotheses. -/
theorem c2_mapper_messages_witness :
    (renderTag env1 0 99 none "BAT_MAPPER;;x" none).1
      = "Entered area " ++ "a1" ++ " with direction " ++ "n" ++ "\n" :=
  ((c2_mapper_messages env1 0 none "BAT_MAPPER;;x" none
      { id := "r1", area := "a1", direction := "n" }
      { id := "r0", area := "a1", direction := "s" }).2
    (by decide) (by decide) (by decide)).1 rfl

/-- C3: for every mapper tag (code 99) whose body is handed to the
location decoder, on successful decode the stored location is replaced by
the newly decoded one, and on decode failure the stored location is left
unchanged and the tag produces no output. -/
theorem c3_room_replacement (env : Env) (junk : Nat) (arg : Option String) (body : String)
    (room : Option Room) (nw : Room) :
    (cstr body).toList.take 12 = "BAT_MAPPER;;".toList →
    cstr body ≠ "BAT_MAPPER;;REALM_MAP" →
    ((env.decode (cstr body) = some nw → (renderTag env junk 99 arg body room).2 = some nw)
     ∧ (env.decode (cstr body) = none →
        (renderTag env junk 99 arg body room).2 = room
        ∧ (renderTag env junk 99 arg body room).1 = "")) := by
  intro hp hne
  simp at hp
  constructor
  · intro hdec
    cases room <;> simp [renderTag, mapperRender, hp, hne, hdec, apply_ite]
  · intro hdec
    simp [renderTag, mapperRender, hp, hne, hdec]

/-- Closed instance of the C3 theorem at concrete inputs, discharging its
hypotheses for both a succeeding and a failing decoder. -/
theorem c3_room_replacement_witness :
    (renderTag env1 0 99 none "BAT_MAPPER;;x" none).2
      = some { id := "r1", area := "a1", direction := "n" }
    ∧ (renderTag env0 0 99 none "BAT_MAPPER;;x"
        (some { id := "r0", area := "a1", direction := "s" })).2
      = some { id := "r0", area := "a1", direction := "s" }
    ∧ (renderTag env0 0 99 none "BAT_MAPPER;;x"
        (some { id := "r0", area := "a1", direction := "s" })).1 = "" :=
  ⟨(c3_room_replacement env1 0 none "BAT_MAPPER;;x" none
      { id := "r1", area := "a1", direction := "n" } (by decide) (by decide)).1 (by decide),
   (c3_room_replacement env0 0 none "BAT_MAPPER;;x"
      (some { id := "r0", area := "a1", direction := "s" })
      { id := "r1", area := "a1", direction := "n" } (by decide) (by decide)).2 (by decide)⟩

/-- C5, counterexample to the claim as stated: the mapper tag (code 99) is
a known code whose appended bytes depend on the stored previous location,
and the color tags (here 20) with an argument on which the hex conversion
fails render from the uninitialized RGB local, whose fresh indeterminate
contents can differ between two dispatches with the same tuple. -/
theorem c5_counterexample :
    (renderTag env1 0 99 none "BAT_MAPPER;;x" none).1
      ≠ (renderTag env1 0 99 none "BAT_MAPPER;;x"
          (some { id := "r0", area := "a1", direction := "s" })).1
    ∧ (renderTag env2 1 20 (some "zz") "b" none).1
      ≠ (renderTag env2 2 20 (some "zz") "b" none).1 := by
  constructor <;> decide

/-- C5, amended: for every known tag code other than the mapper code (99),
and excluding the color tags (20, 21) when an argument is present on which
the hex conversion fails, the bytes appended by the tag-closed dispatch
are a deterministic pure function of (code, argument-presence,
argument-value, body), independent of the stored location and of the
indeterminate contents of the uninitialized color local. -/
theorem c5_amended_pure (env : Env) (code : Nat) (arg : Option String) (body : String)
    (j1 j2 : Nat) (r1 r2 : Option Room) :
    code ∈ knownCodes → code ≠ 99 →
    (code = 20 ∨ code = 21 → ∀ a, arg = some a → scanHex6 a ≠ none) →
    (renderTag env j1 code arg body r1).1 = (renderTag env j2 code arg body r2).1 := by
  intro h hne hcolor
  have hc : ∀ f, (∀ a, arg = some a → scanHex6 a ≠ none) →
      colorRender env j1 f arg body = colorRender env j2 f arg body := by
    intro f hs
    cases arg with
    | none => rfl
    | some a =>
      cases hsc : scanHex6 a with
      | none => exact absurd hsc (hs a rfl)
      | some v => simp [colorRender, hsc]
  fin_cases h <;>
    first
      | exact absurd rfl hne
      | (simp [renderTag]; done)
      | (simp [renderTag]
         exact hc true (hcolor (Or.inl rfl)))
      | (simp [renderTag]
         exact hc false (hcolor (Or.inr rfl)))

/-- Closed instance of the amended C5 theorem at concrete inputs,
discharging its hypotheses at a color tag with a converting argument,
distinct indeterminate values and distinct stored locations. -/
theorem c5_amended_pure_witness :
    (renderTag env2 3 20 (some "ff0000") "b" none).1
      = (renderTag env2 7 20 (some "ff0000") "b"
          (some { id := "r0", area := "a1", direction := "s" })).1 :=
  c5_amended_pure env2 20 (some "ff0000") "b" 3 7 none
    (some { id := "r0", area := "a1", direction := "s" })
    (by decide) (by decide) (by intro h a ha; cases Option.some.inj ha; decide)

/-- C6, counterexample to the claim as stated: the default case renders
the body through a %s conversion of asprintf, which stops at the first NUL
byte, so a body with an embedded NUL is not appended in full. -/
theorem c6_counterexample :
    (renderTag env0 0 77 none "he\x00llo" none).1
      ≠ "[unknown tag " ++ toString 77 ++ "]" ++ "he\x00llo" ++ "\n" := by
  decide

/-- C6, amended: for every tag code outside the known set, tag-closed
appends exactly "[unknown tag ", the decimal code, "]", the body truncated
at its first NUL byte, and a newline. -/
theorem c6_amended_unknown (env : Env) (junk : Nat) (code : Nat) (arg : Option String)
    (body : String) (room : Option Room) :
    code ∉ knownCodes →
    (renderTag env junk code arg body room).1
      = "[unknown tag " ++ toString code ++ "]" ++ cstr body ++ "\n" := by
  intro h
  simp [knownCodes] at h
  simp [renderTag, h]

/-- Closed instance of the amended C6 theorem at the concrete input named
by the claim (code 77, body "hello"), discharging its hypothesis. -/
theorem c6_amended_unknown_witness :
    (renderTag env0 0 77 none "hello" none).1
      = "[unknown tag " ++ toString 77 ++ "]" ++ cstr "hello" ++ "\n" :=
  c6_amended_unknown env0 0 77 none "hello" none (by decide)

/-- C7: when a tag-opened event arrives while the session still has
pending scratch content or an unconsumed argument string, exactly one
close of the pending tag is performed before the new tag begins: its
render is appended once to the output buffer, the session is left clean,
and a further open performs no second render. -/
theorem c7_implicit_close (env : Env) (j1 j2 : Nat) (c d : Nat) (st : ProxyState) :
    (st.tmpbuf.length != 0 || st.argstr.isSome) = true →
    (on_open env j1 c st).obuf = st.obuf ++ (renderTag env j1 c st.argstr st.tmpbuf st.room).1
    ∧ (on_open env j1 c st).tmpbuf = "" ∧ (on_open env j1 c st).argstr = none
    ∧ on_open env j2 d (on_open env j1 c st) = on_open env j1 c st := by
  intro h
  simp [on_open, h, on_close]

/-- Closed instance of the C7 theorem at a concrete pending session,
discharging its hypothesis. -/
theorem c7_implicit_close_witness :
    (on_open env0 0 10 ⟨"out", "x", none, none⟩).obuf
      = "out" ++ (renderTag env0 0 10 none "x" none).1
    ∧ (on_open env0 0 10 ⟨"out", "x", none, none⟩).tmpbuf = ""
    ∧ (on_open env0 0 10 ⟨"out", "x", none, none⟩).argstr = none
    ∧ on_open env0 1 22 (on_open env0 0 10 ⟨"out", "x", none, none⟩)
        = on_open env0 0 10 ⟨"out", "x", none, none⟩ :=
  c7_implicit_close env0 0 1 10 22 ⟨"out", "x", none, none⟩ (by decide)

/-- C8: after every tag-closed event, for every tag code and session
state, the scratch buffer is empty and the argument string is absent. -/
theorem c8_clean_state (env : Env) (junk : Nat) (code : Nat) (st : ProxyState) :
    (on_close env junk code st).tmpbuf = "" ∧ (on_close env junk code st).argstr = none :=
  ⟨rfl, rfl⟩

/-- C9: for the connection-status tags (5, 6), the screen-clear tag (11)
and every status-telemetry tag (40, 41, 42, 50, 51, 52, 53, 54, 60),
tag-closed appends nothing and leaves the output buffer unchanged. -/
theorem c9_silent (env : Env) (junk : Nat) (code : Nat) (st : ProxyState) :
    code ∈ silentCodes →
    (renderTag env junk code st.argstr st.tmpbuf st.room).1 = ""
    ∧ (on_close env junk code st).obuf = st.obuf := by
  intro h
  fin_cases h <;> exact ⟨by simp [renderTag], by simp [on_close, renderTag]⟩

/-- Closed instance of the C9 theorem at a concrete input, discharging its
hypothesis. -/
theorem c9_silent_witness :
    (renderTag env0 0 5 none "body" none).1 = ""
    ∧ (on_close env0 0 5 ⟨"out", "body", none, none⟩).obuf = "out" :=
  ⟨(c9_silent env0 0 5 ⟨"out", "body", none, none⟩ (by decide)).1,
   (c9_silent env0 0 5 ⟨"out", "body", none, none⟩ (by decide)).2⟩

/-- C10: for the color tags (codes 20 and 21) on tag-closed with no
argument string present, the tag produces no output: the output buffer is
unchanged and the accumulated body is discarded. -/
theorem c10_color_no_arg (env : Env) (junk : Nat) (body : String) (r : Option Room)
    (st : ProxyState) :
    st.argstr = none →
    (renderTag env junk 20 none body r).1 = "" ∧ (renderTag env junk 21 none body r).1 = ""
    ∧ (on_close env junk 20 st).obuf = st.obuf ∧ (on_close env junk 21 st).obuf = st.obuf
    ∧ (on_close env junk 20 st).tmpbuf = "" ∧ (on_close env junk 21 st).tmpbuf = "" := by
  intro h
  refine ⟨by simp [renderTag, colorRender], by simp [renderTag, colorRender],
    ?_, ?_, rfl, rfl⟩ <;> simp [on_close, renderTag, colorRender, h]

/-- Closed instance of the C10 theorem at a concrete session with no
argument string, discharging its hypothesis. -/
theorem c10_color_no_arg_witness :
    (renderTag env0 0 20 none "b" none).1 = ""
    ∧ (renderTag env0 0 21 none "b" none).1 = ""
    ∧ (on_close env0 0 20 ⟨"out", "b", none, none⟩).obuf = "out"
    ∧ (on_close env0 0 21 ⟨"out", "b", none, none⟩).obuf = "out"
    ∧ (on_close env0 0 20 ⟨"out", "b", none, none⟩).tmpbuf = ""
    ∧ (on_close env0 0 21 ⟨"out", "b", none, none⟩).tmpbuf = "" :=
  c10_color_no_arg env0 0 "b" none ⟨"out", "b", none, none⟩ rfl
